import Mathlib

/-!
Verification of the DeepSeek-to-MLX conversion pipeline
(`Scripts/convert_deepseek_model.py`).

The script is a configuration-driven wrapper around an external ML library.
We embed it shallowly:

* the static model catalog `DEEPSEEK_MODELS` becomes an association list;
* `pathlib.Path` values are represented by a `parent`/`name` pair, rendered
  to a string as `parent ++ "/" ++ name` (the only path operations the
  script performs are `Path(s).parent`, `Path(s).name`, `/` joining and
  `str(...)`);
* the filesystem is a `FS` value: the set of existing directories plus the
  manifest files the script itself writes (the external converter output
  files are summarised by the creation of the output directory);
* every effectful call into the external library, and every print the
  claims talk about, is recorded as an `Event`;
* nondeterministic inputs of a run (clock/random suffix stream, whether the
  external calls raise, whether the manifest write raises, whether the ML
  runtime imports) are collected in an `Oracle`;
* the uncapped `while output_path.exists()` loop is embedded with explicit
  fuel: a run that exhausts its fuel returns `none`, modelling divergence.

`argparse` `choices` validation is part of the embedded `runMain`: the
Python argument parser rejects a value outside the declared choices with a
usage error and exit status 2 before the body of `main` runs.
-/

namespace DecentralMind

/-- One entry of the static model catalog (`DEEPSEEK_MODELS` values). -/
structure ModelConfig where
  hf_path : String
  description : String
deriving DecidableEq, Repr

/-- The static catalog `DEEPSEEK_MODELS` of the script, as an association
list from logical model id to configuration. -/
def DEEPSEEK_MODELS : List (String × ModelConfig) :=
  [("deepseek-r1-8b",
     { hf_path := "deepseek-ai/DeepSeek-R1-Distill-Llama-8B",
       description := "DeepSeek R1 Distilled Llama 8B - optimized reasoning model" }),
   ("deepseek-r1-qwen-8b",
     { hf_path := "deepseek-ai/DeepSeek-R1-Distill-Qwen2.5-7B",
       description := "DeepSeek R1 Distilled Qwen 7B - lightweight reasoning model" })]

/-- `list(DEEPSEEK_MODELS.keys())`. -/
def modelKeys : List String := DEEPSEEK_MODELS.map Prod.fst

/-- Catalog lookup, `DEEPSEEK_MODELS[name]`; `none` models a `KeyError` /
a failed `name in DEEPSEEK_MODELS` test. -/
def lookupModel (name : String) : Option ModelConfig :=
  DEEPSEEK_MODELS.lookup name

/-- The `choices` list of the `--quantization` argument. -/
def quantChoices : List String := ["q4", "q8", "none"]

/-- A `pathlib.Path`, reduced to the two components the script uses. -/
structure PyPath where
  parent : String
  name : String
deriving DecidableEq, Repr

/-- `str(path)` for a path built as `parent / name`. -/
def PyPath.render (p : PyPath) : String := p.parent ++ "/" ++ p.name

/-- `base_output_path.parent / f"{base_output_path.name}_{temp_suffix}"`. -/
def candidate (base : PyPath) (suffix : String) : PyPath :=
  { parent := base.parent, name := base.name ++ "_" ++ suffix }

/-- `f"{datetime.now().strftime(TIMESTAMPFMT)}_{random.randint(1000, 9999)}"`:
one timestamp/random draw, rendered to the suffix string. -/
def suffixOf (draw : String × Nat) : String :=
  draw.1 ++ "_" ++ toString draw.2

/-- The `model_info.json` contents assembled by `generate_model_info`
(the `info` dict; `usage` is inlined). `json.dump` serialises this record
deterministically, so file contents are compared at this level. -/
structure Manifest where
  model_name : String
  model_path : String
  quantization : String
  framework : String
  target_platform : String
  converted_at : String
  description : String
  min_ios_version : String
  min_memory_gb : Nat
  recommended_devices : List String
deriving DecidableEq, Repr

/-- The `info` dict of `generate_model_info`, as a function of its inputs
and of the clock reading `datetime.now().isoformat()`. -/
def modelManifest (model_name model_path quantization now description : String) : Manifest :=
  { model_name := model_name
    model_path := model_path
    quantization := quantization
    framework := "MLX"
    target_platform := "iOS"
    converted_at := now
    description := description
    min_ios_version := "16.0"
    min_memory_gb := if quantization = "q4" then 8 else 12
    recommended_devices :=
      ["iPhone 15 Pro", "iPhone 15 Pro Max", "iPad Air M1/M2", "iPad Pro M1/M2"] }

/-- The filesystem state the script observes and mutates: existing
directories (by rendered path string) and the manifest files it wrote. -/
structure FS where
  dirs : List String
  files : List (String × Manifest)
deriving DecidableEq, Repr

/-- `output_path.exists()` is false: the candidate directory is unused. -/
def fresh (fs : FS) (p : PyPath) : Bool := ! fs.dirs.contains p.render

/-- `open(info_path, "w")` followed by `json.dump`: overwrite semantics,
never a merge with a pre-existing file. -/
def setFile (files : List (String × Manifest)) (key : String) (m : Manifest) :
    List (String × Manifest) :=
  (key, m) :: files.filter fun e => e.1 != key

/-- One observable action of a run: a call into the external ML library,
the manifest write, or one of the prints the claims mention. -/
inductive Event where
  | convertCall (hf_path mlx_path : String) (quantize : Bool)
      (q_bits q_group_size : Option Nat)
  | loadCall (path : String)
  | generateCall (prompt : String) (max_tokens : Nat) (temp : ℚ)
  | writeManifest (path : String)
  | printUnknownModel (name : String)
  | printAvailableModels (keys : List String)
  | testWarning
  | iosWarning
  | usageError (arg : String) (choices : List String)
deriving DecidableEq, Repr

/-- The per-run nondeterministic inputs: whether the ML runtime imports,
the stream of `(strftime, randint(1000, 9999))` draws of the suffix loop,
whether each external call raises, whether the manifest write raises, and
the clock reading used for `converted_at`. -/
structure Oracle where
  mlxInstalled : Bool
  suffix : Nat → String × Nat
  convertOk : Bool
  loadOk : String → Bool
  generateOk : Bool
  writeOk : Bool
  nowIso : String

/-- The `while output_path.exists():` loop, searching from draw index `i`
with explicit fuel; `none` models the uncapped loop running forever. -/
def allocFrom (stream : Nat → String × Nat) (fs : FS) (base : PyPath) :
    Nat → Nat → Option PyPath
  | _, 0 => none
  | i, fuel + 1 =>
    let c := candidate base (suffixOf (stream i))
    if fresh fs c then some c else allocFrom stream fs base (i + 1) fuel

/-- The allocation loop terminates: some finite fuel suffices. -/
def allocTerminates (stream : Nat → String × Nat) (fs : FS) (base : PyPath) : Prop :=
  ∃ fuel, (allocFrom stream fs base 0 fuel).isSome = true

/-- The fixed smoke-test prompt of `test_model`. -/
def test_prompt : String :=
  "\n        Analyze this content and provide structured information:\n        \n        \"Just discovered an amazing coffee shop downtown. Great atmosphere, excellent wifi, perfect for working. The barista recommended their signature blend - definitely coming back!\"\n        \n        Provide:\n        - Category: \n        - Tags: \n        - Sentiment:\n        "

/-- `test_model(model_path)`: load the artifact, run one generation with
the fixed prompt, `max_tokens=200`, `temp=0.3`; every exception is caught
inside the function (logged as a warning), so it only yields a trace. -/
def test_model (or : Oracle) (model_path : String) : List Event :=
  Event.loadCall model_path ::
    if or.loadOk model_path then
      Event.generateCall test_prompt 200 (3 / 10 : ℚ) ::
        (if or.generateOk then [] else [Event.testWarning])
    else [Event.testWarning]

/-- `generate_model_info(model_path, model_name, quantization)` with the
clock reading `now`; `none` models the `KeyError` raised when indexing the
catalog with an unknown `model_name`. -/
def generate_model_info (fs : FS) (model_path model_name quantization now : String) :
    Option FS :=
  match lookupModel model_name with
  | none => none
  | some config =>
    let info := modelManifest model_name model_path quantization now config.description
    some { fs with files := setFile fs.files (model_path ++ "/model_info.json") info }

/-- The external `convert(...)` call issued for a given quantization level:
`q4` and `q8` quantize with 4 resp. 8 bits at group size 64, anything else
(the `none` level) converts unquantized. -/
def convertEvent (hf_path mlx_path quantization : String) : Event :=
  if quantization = "q4" then
    Event.convertCall hf_path mlx_path true (some 4) (some 64)
  else if quantization = "q8" then
    Event.convertCall hf_path mlx_path true (some 8) (some 64)
  else
    Event.convertCall hf_path mlx_path false none none

/-- Result of `convert_model_to_mlx`: its boolean return value, the
filesystem afterwards, and the trace of its run. -/
structure DriverResult where
  success : Bool
  fs : FS
  events : List Event
deriving DecidableEq, Repr

/-- `convert_model_to_mlx(model_name, output_dir, quantization)`.

Catalog miss: print the unknown id and the valid ids, return `False`,
touch nothing. Otherwise allocate a fresh suffixed output path (`none` if
the uncapped loop diverges on the given fuel), call `convert` (on success
the external library creates the output directory), run the self-contained
smoke test, then `generate_model_info`; any exception of `convert` or of
the manifest write is caught by the enclosing handler and turned into the
return value `False`. A raising `convert` is summarised as leaving the
filesystem unchanged (the spec accepts leftover incomplete output and no
claim depends on it). -/
def convert_model_to_mlx (or : Oracle) (fs : FS) (model_name : String)
    (output_dir : PyPath) (quantization : String) (fuel : Nat) :
    Option DriverResult :=
  match lookupModel model_name with
  | none =>
    some { success := false, fs := fs,
           events := [Event.printUnknownModel model_name,
                      Event.printAvailableModels modelKeys] }
  | some config =>
    match allocFrom or.suffix fs output_dir 0 fuel with
    | none => none
    | some output_path =>
      let ev := convertEvent config.hf_path output_path.render quantization
      if or.convertOk then
        let fs1 : FS := { fs with dirs := output_path.render :: fs.dirs }
        let tevs := test_model or output_path.render
        if or.writeOk then
          match generate_model_info fs1 output_path.render model_name quantization or.nowIso with
          | some fs2 =>
            some { success := true, fs := fs2,
                   events := ev :: tevs ++
                     [Event.writeManifest (output_path.render ++ "/model_info.json")] }
          | none => some { success := false, fs := fs1, events := ev :: tevs }
        else
          some { success := false, fs := fs1, events := ev :: tevs }
      else
        some { success := false, fs := fs, events := [ev] }

/-- `optimize_for_ios(model_path)`: a load-only check; its exceptions are
caught inside the function and logged as a warning. -/
def optimize_for_ios (or : Oracle) (model_path : String) : List Event :=
  Event.loadCall model_path :: if or.loadOk model_path then [] else [Event.iosWarning]

/-- The parsed command line of `main`. -/
structure Args where
  model : String
  output : PyPath
  quantization : String
  optimize_ios : Bool
deriving Repr

/-- Outcome of one process run: exit status, the `success` flag computed by
`main`, the filesystem, the trace up to the end of the conversion driver,
and the trace of the optional iOS-optimization step. -/
structure MainResult where
  exitCode : Nat
  succeeded : Bool
  fs : FS
  events : List Event
  iosEvents : List Event
deriving DecidableEq, Repr

/-- `main()`: argparse `choices` validation (a value outside the declared
choices is rejected with a usage error and exit status 2 before the body
of `main` runs), the environment check (`sys.exit(1)` when the ML runtime
fails to import, before any conversion work), the conversion driver,
`optimize_for_ios(args.output)` when requested and conversion succeeded,
and the final exit status: 0 on success, `sys.exit(1)` otherwise. -/
def runMain (or : Oracle) (fs : FS) (args : Args) (fuel : Nat) : Option MainResult :=
  if ¬ modelKeys.contains args.model then
    some { exitCode := 2, succeeded := false, fs := fs,
           events := [Event.usageError "model" modelKeys], iosEvents := [] }
  else if ¬ quantChoices.contains args.quantization then
    some { exitCode := 2, succeeded := false, fs := fs,
           events := [Event.usageError "quantization" quantChoices], iosEvents := [] }
  else if ¬ or.mlxInstalled then
    some { exitCode := 1, succeeded := false, fs := fs, events := [], iosEvents := [] }
  else
    match convert_model_to_mlx or fs args.model args.output args.quantization fuel with
    | none => none
    | some dr =>
      some { exitCode := if dr.success then 0 else 1
             succeeded := dr.success
             fs := dr.fs
             events := dr.events
             iosEvents :=
               if dr.success && args.optimize_ios then
                 optimize_for_ios or args.output.render
               else [] }

/-- The manifest currently stored at `<dir>/model_info.json`, if any. -/
def manifestAt (fs : FS) (dir : String) : Option Manifest :=
  fs.files.lookup (dir ++ "/model_info.json")

/-- Recogniser for external `convert` calls in a trace. -/
def isConvertCall : Event → Bool
  | Event.convertCall _ _ _ _ _ => true
  | _ => false

/-- Recogniser for external `generate` calls in a trace. -/
def isGenerateCall : Event → Bool
  | Event.generateCall _ _ _ => true
  | _ => false

/-! ### Concrete fixtures used to exercise the embedding -/

/-- A nominal run: runtime installed, every external call succeeds, a fixed
clock/random draw. -/
def orW : Oracle :=
  { mlxInstalled := true
    suffix := fun _ => ("20250101_120000", 1234)
    convertOk := true
    loadOk := fun _ => true
    generateOk := true
    writeOk := true
    nowIso := "2025-01-01T12:00:00" }

/-- An empty filesystem. -/
def fs0 : FS := ⟨[], []⟩

/-- The default `--output` directory `./models/deepseek-r1-8b-mlx`. -/
def baseW : PyPath := ⟨"./models", "deepseek-r1-8b-mlx"⟩

/-- A nominal command line. -/
def argsW : Args := ⟨"deepseek-r1-8b", baseW, "q4", true⟩

/-! ### Basic lemmas about the embedding -/

theorem string_append_left_cancel {a b c : String} (h : a ++ b = a ++ c) : b = c := by
  have hd : a.data ++ b.data = a.data ++ c.data := by
    have h2 := congrArg String.data h
    simpa [String.data_append] using h2
  have hbc : b.data = c.data := List.append_cancel_left hd
  cases b; cases c; simp_all

theorem lookupModel_eq_none_iff (n : String) :
    lookupModel n = none ↔ modelKeys.contains n = false := by
  by_cases h1 : n = "deepseek-r1-8b"
  · subst h1; simp [lookupModel, DEEPSEEK_MODELS, modelKeys, List.lookup]
  · by_cases h2 : n = "deepseek-r1-qwen-8b"
    · subst h2; simp [lookupModel, DEEPSEEK_MODELS, modelKeys, List.lookup]
    · have e1 : (n == "deepseek-r1-8b") = false := by simp [h1]
      have e2 : (n == "deepseek-r1-qwen-8b") = false := by simp [h2]
      simp [lookupModel, DEEPSEEK_MODELS, modelKeys, List.lookup, e1, e2]
      exact ⟨h1, h2⟩

theorem fresh_iff (fs : FS) (p : PyPath) : fresh fs p = true ↔ p.render ∉ fs.dirs := by
  simp [fresh, List.elem_iff]

theorem allocFrom_sound {stream : Nat → String × Nat} {fs : FS} {base : PyPath} :
    ∀ fuel i p, allocFrom stream fs base i fuel = some p →
      fresh fs p = true ∧ ∃ j, i ≤ j ∧ p = candidate base (suffixOf (stream j)) := by
  intro fuel
  induction fuel with
  | zero => intro i p h; simp [allocFrom] at h
  | succ n ih =>
    intro i p h
    rw [allocFrom] at h
    by_cases hf : fresh fs (candidate base (suffixOf (stream i))) = true
    · simp only [hf, if_true] at h
      cases h
      exact ⟨hf, i, Nat.le_refl i, rfl⟩
    · simp only [hf, if_false, Bool.false_eq_true] at h
      obtain ⟨hfr, j, hij, hp⟩ := ih (i + 1) p h
      exact ⟨hfr, j, by omega, hp⟩

theorem candidate_ne_base (base : PyPath) (s : String) : candidate base s ≠ base := by
  intro h
  have hl := congrArg (fun p => p.name.length) h
  have hu : ("_" : String).length = 1 := rfl
  simp [candidate, String.length_append, hu] at hl
  omega

theorem candidate_render_ne_base (base : PyPath) (s : String) :
    (candidate base s).render ≠ base.render := by
  intro h
  have hl := congrArg String.length h
  have hu : ("_" : String).length = 1 := rfl
  simp [candidate, PyPath.render, String.length_append, hu] at hl
  omega

theorem setFile_idem (l : List (String × Manifest)) (k : String) (m : Manifest) :
    setFile (setFile l k m) k m = setFile l k m := by
  simp [setFile, List.filter_filter]

theorem lookup_setFile (l : List (String × Manifest)) (k : String) (m : Manifest) :
    List.lookup k (setFile l k m) = some m := by
  simp [setFile, List.lookup]

theorem test_model_filter_convert (or : Oracle) (p : String) :
    (test_model or p).filter isConvertCall = [] := by
  cases h1 : or.loadOk p <;> cases h2 : or.generateOk <;>
    simp [test_model, isConvertCall, h1, h2]

theorem test_model_filter_generate_of_load (or : Oracle) (p : String)
    (h : or.loadOk p = true) :
    (test_model or p).filter isGenerateCall =
      [Event.generateCall test_prompt 200 (3 / 10 : ℚ)] := by
  cases h2 : or.generateOk <;> simp [test_model, isGenerateCall, h, h2]

theorem test_model_filter_generate_of_load_fail (or : Oracle) (p : String)
    (h : or.loadOk p = false) :
    (test_model or p).filter isGenerateCall = [] ∧ Event.testWarning ∈ test_model or p := by
  simp [test_model, isGenerateCall, h]

theorem convertCall_not_mem_test_model (or : Oracle) (p : String)
    (hf mp : String) (qz : Bool) (qb qg : Option Nat) :
    Event.convertCall hf mp qz qb qg ∉ test_model or p := by
  cases h1 : or.loadOk p <;> cases h2 : or.generateOk <;>
    simp [test_model, h1, h2]

/-- Case analysis on the outcomes of `convert_model_to_mlx`. -/
theorem convert_model_to_mlx_inv {or : Oracle} {fs : FS} {name : String}
    {out : PyPath} {q : String} {fuel : Nat} {dr : DriverResult}
    (h : convert_model_to_mlx or fs name out q fuel = some dr) :
    (lookupModel name = none ∧
      dr = ⟨false, fs, [Event.printUnknownModel name,
                        Event.printAvailableModels modelKeys]⟩) ∨
    ∃ config p, lookupModel name = some config ∧
      allocFrom or.suffix fs out 0 fuel = some p ∧
      ((or.convertOk = false ∧
          dr = ⟨false, fs, [convertEvent config.hf_path p.render q]⟩) ∨
       (or.convertOk = true ∧ or.writeOk = false ∧
          dr = ⟨false, ⟨p.render :: fs.dirs, fs.files⟩,
                convertEvent config.hf_path p.render q :: test_model or p.render⟩) ∨
       (or.convertOk = true ∧ or.writeOk = true ∧
          dr = ⟨true,
                ⟨p.render :: fs.dirs,
                 setFile fs.files (p.render ++ "/model_info.json")
                   (modelManifest name p.render q or.nowIso config.description)⟩,
                convertEvent config.hf_path p.render q :: test_model or p.render ++
                  [Event.writeManifest (p.render ++ "/model_info.json")]⟩)) := by
  unfold convert_model_to_mlx at h
  cases hm : lookupModel name with
  | none =>
    rw [hm] at h
    exact Or.inl ⟨rfl, (Option.some_inj.mp h).symm⟩
  | some config =>
    rw [hm] at h
    cases ha : allocFrom or.suffix fs out 0 fuel with
    | none => rw [ha] at h; exact absurd h (by simp)
    | some p =>
      rw [ha] at h
      refine Or.inr ⟨config, p, rfl, rfl, ?_⟩
      cases hc : or.convertOk with
      | false =>
        rw [hc] at h
        simp only [Bool.false_eq_true, if_false] at h
        exact Or.inl ⟨rfl, (Option.some_inj.mp h).symm⟩
      | true =>
        rw [hc] at h
        simp only [if_true] at h
        cases hw : or.writeOk with
        | false =>
          rw [hw] at h
          simp only [Bool.false_eq_true, if_false] at h
          exact Or.inr (Or.inl ⟨rfl, rfl, (Option.some_inj.mp h).symm⟩)
        | true =>
          rw [hw] at h
          simp only [if_true, generate_model_info, hm] at h
          exact Or.inr (Or.inr ⟨rfl, rfl, (Option.some_inj.mp h).symm⟩)

/-- Case analysis on the outcomes of `runMain`. -/
theorem runMain_inv {or : Oracle} {fs : FS} {args : Args} {fuel : Nat} {r : MainResult}
    (h : runMain or fs args fuel = some r) :
    (modelKeys.contains args.model = false ∧
       r = ⟨2, false, fs, [Event.usageError "model" modelKeys], []⟩) ∨
    (modelKeys.contains args.model = true ∧
       quantChoices.contains args.quantization = false ∧
       r = ⟨2, false, fs, [Event.usageError "quantization" quantChoices], []⟩) ∨
    (modelKeys.contains args.model = true ∧
       quantChoices.contains args.quantization = true ∧
       or.mlxInstalled = false ∧ r = ⟨1, false, fs, [], []⟩) ∨
    (modelKeys.contains args.model = true ∧
       quantChoices.contains args.quantization = true ∧
       or.mlxInstalled = true ∧
       ∃ dr, convert_model_to_mlx or fs args.model args.output args.quantization fuel =
               some dr ∧
         r = ⟨if dr.success then 0 else 1, dr.success, dr.fs, dr.events,
              if dr.success && args.optimize_ios then
                optimize_for_ios or args.output.render
              else []⟩) := by
  unfold runMain at h
  cases hm : modelKeys.contains args.model with
  | false =>
    rw [hm] at h
    simp only [Bool.false_eq_true, not_false_iff, if_true] at h
    exact Or.inl ⟨rfl, (Option.some_inj.mp h).symm⟩
  | true =>
    rw [hm] at h
    simp only [not_true, if_false] at h
    cases hq : quantChoices.contains args.quantization with
    | false =>
      rw [hq] at h
      simp only [Bool.false_eq_true, not_false_iff, if_true] at h
      exact Or.inr (Or.inl ⟨rfl, rfl, (Option.some_inj.mp h).symm⟩)
    | true =>
      rw [hq] at h
      simp only [not_true, if_false] at h
      cases hx : or.mlxInstalled with
      | false =>
        rw [hx] at h
        simp only [Bool.false_eq_true, not_false_iff, if_true] at h
        exact Or.inr (Or.inr (Or.inl ⟨rfl, rfl, rfl, (Option.some_inj.mp h).symm⟩))
      | true =>
        rw [hx] at h
        simp only [not_true, if_false] at h
        cases hd : convert_model_to_mlx or fs args.model args.output args.quantization fuel with
        | none => rw [hd] at h; exact absurd h (by simp)
        | some dr =>
          rw [hd] at h
          exact Or.inr (Or.inr (Or.inr
            ⟨rfl, rfl, rfl, dr, rfl, (Option.some_inj.mp h).symm⟩))

/-! ### C1 — unknown model id -/

/-- C1 counterexample: requesting the model id `not-a-real-model` makes the
pipeline exit with status 2 (the argparse usage error for a value outside
`choices`), not with exit code 1 as the claim states; the filesystem is
untouched. -/
theorem C1_counterexample :
    runMain orW fs0 ⟨"not-a-real-model", baseW, "q4", false⟩ 1 =
      some ⟨2, false, fs0, [Event.usageError "model" modelKeys], []⟩ ∧
    (2 : Nat) ≠ 1 :=
  ⟨rfl, by decide⟩

/-- C1 (amended): a requested model id outside the static catalog is
rejected before any conversion work with no filesystem writes: the
argument parser exits with status 2 and prints the valid choices; the
conversion driver itself, called with an unknown id, returns failure and
prints the unknown id and the list of valid catalog ids, also without
touching the filesystem. -/
theorem C1_unknown_model {or : Oracle} {fs : FS} {args : Args} {fuel : Nat}
    {r : MainResult} (h : runMain or fs args fuel = some r)
    (hm : modelKeys.contains args.model = false) :
    (r.exitCode = 2 ∧ r.fs = fs ∧
      r.events = [Event.usageError "model" modelKeys] ∧ r.iosEvents = []) ∧
    (∀ name : String, ∀ out : PyPath, ∀ q : String,
      modelKeys.contains name = false →
      convert_model_to_mlx or fs name out q fuel =
        some ⟨false, fs, [Event.printUnknownModel name,
                          Event.printAvailableModels modelKeys]⟩) := by
  constructor
  · rcases runMain_inv h with ⟨_, rfl⟩ | ⟨hm2, _, _⟩ | ⟨hm2, _, _, _⟩ | ⟨hm2, _, _, _⟩
    · exact ⟨rfl, rfl, rfl, rfl⟩
    all_goals rw [hm] at hm2; cases hm2
  · intro name out q hn
    have hl : lookupModel name = none := (lookupModel_eq_none_iff name).mpr hn
    unfold convert_model_to_mlx
    rw [hl]

/-- C1 witness: the amendment applies to the concrete run on
`not-a-real-model`. -/
theorem C1_unknown_model_witness :
    convert_model_to_mlx orW fs0 "not-a-real-model" baseW "q4" 1 =
      some ⟨false, fs0, [Event.printUnknownModel "not-a-real-model",
                         Event.printAvailableModels modelKeys]⟩ :=
  (@C1_unknown_model orW fs0 ⟨"not-a-real-model", baseW, "q4", false⟩ 1
      ⟨2, false, fs0, [Event.usageError "model" modelKeys], []⟩ rfl (by decide)).2
    "not-a-real-model" baseW "q4" (by decide)

/-! ### C2 — output path allocator -/

/-- C2: a path returned by the allocation loop is of the form
`<base>_<timestamp>_<randint>` with the random draw in `[1000, 9999]`
(a four-digit number), differs from the base path, and did not exist in
the filesystem at the moment of the existence check; the allocator itself
writes nothing — with a conversion call that raises at once, the driver
finishes with the filesystem exactly as it started. -/
theorem C2_output_path (stream : Nat → String × Nat) (fs : FS) (base : PyPath)
    (fuel : Nat) (p : PyPath)
    (hrand : ∀ i, 1000 ≤ (stream i).2 ∧ (stream i).2 ≤ 9999)
    (h : allocFrom stream fs base 0 fuel = some p) :
    (∃ j, p = candidate base (suffixOf (stream j)) ∧
       p.render = base.render ++ "_" ++ (stream j).1 ++ "_" ++ toString (stream j).2 ∧
       1000 ≤ (stream j).2 ∧ (stream j).2 ≤ 9999) ∧
    p ≠ base ∧ p.render ∉ fs.dirs ∧
    (∀ or : Oracle, or.suffix = stream → or.convertOk = false →
      (convert_model_to_mlx or fs "deepseek-r1-8b" base "q4" fuel).map DriverResult.fs =
        some fs) := by
  obtain ⟨hfr, j, _, hp⟩ := allocFrom_sound fuel 0 p h
  refine ⟨⟨j, hp, ?_, (hrand j).1, (hrand j).2⟩, ?_, ?_, ?_⟩
  · subst hp
    simp [candidate, PyPath.render, suffixOf, String.append_assoc]
  · subst hp; exact candidate_ne_base base _
  · exact (fresh_iff fs p).mp hfr
  · intro or hs hc
    have hl : lookupModel "deepseek-r1-8b" =
        some { hf_path := "deepseek-ai/DeepSeek-R1-Distill-Llama-8B",
               description := "DeepSeek R1 Distilled Llama 8B - optimized reasoning model" } :=
      rfl
    unfold convert_model_to_mlx
    rw [hl, hs, h, hc]
    rfl

/-- C2 witness: the allocator on an empty filesystem returns the suffixed
path at the first draw, distinct from the base and unused. -/
theorem C2_output_path_witness :
    candidate baseW (suffixOf ("20250101_120000", 1234)) ≠ baseW ∧
    (candidate baseW (suffixOf ("20250101_120000", 1234))).render ∉ fs0.dirs :=
  (fun hc => ⟨hc.2.1, hc.2.2.1⟩)
    (C2_output_path orW.suffix fs0 baseW 1
      (candidate baseW (suffixOf ("20250101_120000", 1234)))
      (fun _ => (by decide : 1000 ≤ 1234 ∧ 1234 ≤ 9999)) rfl)

theorem isConvertCall_convertEvent (hf mp q : String) :
    isConvertCall (convertEvent hf mp q) = true := by
  unfold convertEvent
  split_ifs <;> rfl

theorem convertEvent_mlx_path {hf mp q hf2 mp2 : String} {qz : Bool}
    {qb qg : Option Nat}
    (h : convertEvent hf mp q = Event.convertCall hf2 mp2 qz qb qg) : mp2 = mp := by
  unfold convertEvent at h
  split_ifs at h <;> · injection h with _ e; exact e.symm

/-! ### C3 — quantization level resolution -/

/-- C3: whatever the run outcome, the driver issues exactly one external
convert call, and its parameters resolve from the quantization level as:
`q4` → quantize, 4 bits, group size 64; `q8` → quantize, 8 bits, group
size 64; `none` → no quantization. -/
theorem C3_quantization_resolution {or : Oracle} {fs : FS} {name : String}
    {out : PyPath} {q : String} {fuel : Nat} {dr : DriverResult}
    {config : ModelConfig} (hc : lookupModel name = some config)
    (h : convert_model_to_mlx or fs name out q fuel = some dr) :
    ∃ mlx_path,
      dr.events.filter isConvertCall = [convertEvent config.hf_path mlx_path q] ∧
      (q = "q4" → convertEvent config.hf_path mlx_path q =
        Event.convertCall config.hf_path mlx_path true (some 4) (some 64)) ∧
      (q = "q8" → convertEvent config.hf_path mlx_path q =
        Event.convertCall config.hf_path mlx_path true (some 8) (some 64)) ∧
      (q = "none" → convertEvent config.hf_path mlx_path q =
        Event.convertCall config.hf_path mlx_path false none none) := by
  rcases convert_model_to_mlx_inv h with ⟨hn, _⟩ | ⟨config2, p, hc2, _, hcase⟩
  · rw [hc] at hn; cases hn
  · rw [hc] at hc2
    have e : config2 = config := by injection hc2.symm
    subst e
    refine ⟨p.render, ?_, ?_, ?_, ?_⟩
    · rcases hcase with ⟨_, rfl⟩ | ⟨_, _, rfl⟩ | ⟨_, _, rfl⟩ <;>
        simp only [List.filter_cons, List.filter_append, isConvertCall_convertEvent,
          test_model_filter_convert, if_true] <;>
        simp [isConvertCall]
    · intro hq; subst hq; rfl
    · intro hq; subst hq; rfl
    · intro hq; subst hq; rfl

/-- C3 witness: a nominal `q4` run issues the 4-bit, group-size-64
quantizing convert call. -/
theorem C3_quantization_resolution_witness :
    ∃ dr, convert_model_to_mlx orW fs0 "deepseek-r1-8b" baseW "q4" 1 = some dr ∧
      ∃ mlx_path, dr.events.filter isConvertCall =
        [Event.convertCall "deepseek-ai/DeepSeek-R1-Distill-Llama-8B" mlx_path true
          (some 4) (some 64)] :=
  ⟨_, rfl, by
    obtain ⟨mp, hf, h4, _, _⟩ :=
      @C3_quantization_resolution orW fs0 "deepseek-r1-8b" baseW "q4" 1 _
        { hf_path := "deepseek-ai/DeepSeek-R1-Distill-Llama-8B",
          description := "DeepSeek R1 Distilled Llama 8B - optimized reasoning model" }
        rfl rfl
    exact ⟨mp, by rw [hf, h4 rfl]⟩⟩

/-! ### C4 — manifest memory threshold -/

/-- C4: the manifest written by `generate_model_info` records
`min_memory_gb = 8` for quantization `q4` and `12` for `q8` and for
`none`. -/
theorem C4_min_memory {fs : FS} {p n t : String} {config : ModelConfig}
    (hc : lookupModel n = some config) :
    (generate_model_info fs p n "q4" t).map
        (fun f => (manifestAt f p).map Manifest.min_memory_gb) = some (some 8) ∧
    (generate_model_info fs p n "q8" t).map
        (fun f => (manifestAt f p).map Manifest.min_memory_gb) = some (some 12) ∧
    (generate_model_info fs p n "none" t).map
        (fun f => (manifestAt f p).map Manifest.min_memory_gb) = some (some 12) := by
  unfold generate_model_info
  rw [hc]
  refine ⟨?_, ?_, ?_⟩ <;> simp [manifestAt, lookup_setFile, modelManifest]

/-- C4 witness: concrete manifests for the three quantization levels. -/
theorem C4_min_memory_witness :
    (generate_model_info fs0 "./m" "deepseek-r1-8b" "q4" "t").map
        (fun f => (manifestAt f "./m").map Manifest.min_memory_gb) = some (some 8) ∧
    (generate_model_info fs0 "./m" "deepseek-r1-8b" "none" "t").map
        (fun f => (manifestAt f "./m").map Manifest.min_memory_gb) = some (some 12) :=
  (fun hc => ⟨hc.1, hc.2.2⟩)
    (@C4_min_memory fs0 "./m" "deepseek-r1-8b" "t"
      { hf_path := "deepseek-ai/DeepSeek-R1-Distill-Llama-8B",
        description := "DeepSeek R1 Distilled Llama 8B - optimized reasoning model" }
      rfl)

/-- The driver's return value and resulting filesystem do not read the
smoke-test failure modes of the oracle. -/
theorem driver_ignores_test_oracle (or : Oracle) (l : String → Bool) (g : Bool)
    (fs : FS) (name : String) (out : PyPath) (q : String) (fuel : Nat) :
    (convert_model_to_mlx { or with loadOk := l, generateOk := g } fs name out q fuel).map
        (fun dr => (dr.success, dr.fs)) =
      (convert_model_to_mlx or fs name out q fuel).map
        (fun dr => (dr.success, dr.fs)) := by
  have h1 : ({ or with loadOk := l, generateOk := g } : Oracle).suffix = or.suffix := rfl
  have h2 : ({ or with loadOk := l, generateOk := g } : Oracle).convertOk = or.convertOk := rfl
  have h3 : ({ or with loadOk := l, generateOk := g } : Oracle).writeOk = or.writeOk := rfl
  have h4 : ({ or with loadOk := l, generateOk := g } : Oracle).nowIso = or.nowIso := rfl
  unfold convert_model_to_mlx
  rw [h1, h2, h3, h4]
  cases hm : lookupModel name with
  | none => rfl
  | some config =>
    cases ha : allocFrom or.suffix fs out 0 fuel with
    | none => rfl
    | some p =>
      cases hc : or.convertOk with
      | false => rfl
      | true =>
        cases hw : or.writeOk with
        | false => rfl
        | true =>
          cases hg : generate_model_info { dirs := p.render :: fs.dirs, files := fs.files }
              p.render name q or.nowIso with
          | none => simp only [hg]; rfl
          | some fs2 => simp only [hg]; rfl

/-- The exit code and success flag of a whole run do not read the
smoke-test failure modes of the oracle. -/
theorem runMain_ignores_test_oracle (or : Oracle) (l : String → Bool) (g : Bool)
    (fs : FS) (args : Args) (fuel : Nat) :
    (runMain { or with loadOk := l, generateOk := g } fs args fuel).map
        (fun r => (r.exitCode, r.succeeded)) =
      (runMain or fs args fuel).map (fun r => (r.exitCode, r.succeeded)) := by
  have h1 : ({ or with loadOk := l, generateOk := g } : Oracle).mlxInstalled =
      or.mlxInstalled := rfl
  unfold runMain
  rw [h1]
  cases hm : modelKeys.contains args.model with
  | false => rfl
  | true =>
    cases hq : quantChoices.contains args.quantization with
    | false => rfl
    | true =>
      cases hx : or.mlxInstalled with
      | false => rfl
      | true =>
        have hd := driver_ignores_test_oracle or l g fs args.model args.output
          args.quantization fuel
        cases h2 : convert_model_to_mlx or fs args.model args.output args.quantization fuel with
        | none =>
          rw [h2] at hd
          simp only [Option.map_none'] at hd
          have h3 : convert_model_to_mlx { or with loadOk := l, generateOk := g } fs
              args.model args.output args.quantization fuel = none :=
            Option.map_eq_none'.mp hd
          rw [hx] at h3
          rw [h3]
        | some dr =>
          rw [h2] at hd
          simp only [Option.map_some'] at hd
          obtain ⟨dr2, h3, h4⟩ := Option.map_eq_some'.mp hd
          rw [hx] at h3
          rw [h3]
          have h5 : dr2.success = dr.success := congrArg Prod.fst h4
          simp [h5]

/-! ### C5 — smoke test -/

/-- C5: when loading the artifact succeeds, the smoke test issues exactly
one generation call, with the fixed prompt, `max_tokens = 200` and
`temp = 0.3`; when loading raises, no generation call happens and the
caught exception is only logged as a warning; in all cases the smoke-test
failure modes have no effect on the run's success flag or exit code. -/
theorem C5_smoke_test :
    (∀ or : Oracle, ∀ p : String, or.loadOk p = true →
       (test_model or p).filter isGenerateCall =
         [Event.generateCall test_prompt 200 (3 / 10 : ℚ)]) ∧
    (∀ or : Oracle, ∀ p : String, or.loadOk p = false →
       (test_model or p).filter isGenerateCall = [] ∧
         Event.testWarning ∈ test_model or p) ∧
    (∀ or : Oracle, ∀ l : String → Bool, ∀ g : Bool, ∀ fs args fuel,
       (runMain { or with loadOk := l, generateOk := g } fs args fuel).map
           (fun r => (r.exitCode, r.succeeded)) =
         (runMain or fs args fuel).map (fun r => (r.exitCode, r.succeeded))) :=
  ⟨test_model_filter_generate_of_load, test_model_filter_generate_of_load_fail,
   runMain_ignores_test_oracle⟩

/-- C5 witness: the nominal smoke test generates once with the fixed
parameters, and a run whose smoke test fails entirely has the same exit
code and success flag as the nominal run. -/
theorem C5_smoke_test_witness :
    (test_model orW "./m").filter isGenerateCall =
      [Event.generateCall test_prompt 200 (3 / 10 : ℚ)] ∧
    (runMain { orW with loadOk := fun _ => false, generateOk := false }
        fs0 argsW 1).map (fun r => (r.exitCode, r.succeeded)) =
      (runMain orW fs0 argsW 1).map (fun r => (r.exitCode, r.succeeded)) :=
  ⟨C5_smoke_test.1 orW "./m" rfl,
   C5_smoke_test.2.2 orW (fun _ => false) false fs0 argsW 1⟩

/-! ### C6 — manifest idempotence -/

/-- C6 counterexample: the manifest embeds `converted_at = datetime.now()`,
so re-running manifest generation at a later clock reading overwrites the
file with different content — the claim's "identical content" fails across
reruns. -/
theorem C6_counterexample :
    (generate_model_info fs0 "./m" "deepseek-r1-8b" "q4" "2025-01-01T00:00:00").map
        (fun f => manifestAt f "./m") ≠
      (generate_model_info fs0 "./m" "deepseek-r1-8b" "q4" "2025-01-02T00:00:00").map
        (fun f => manifestAt f "./m") := by
  decide

/-- C6 (amended): manifest writing always overwrites (never merges) and is
deterministic in its inputs including the clock reading: rewriting with
the same path, model id, quantization and clock value leaves the
filesystem literally unchanged, and the stored content is exactly the
manifest derived from those inputs; only the embedded `converted_at`
clock value makes reruns at different times differ. -/
theorem C6_manifest_idempotent {fs : FS} {p n q t : String} {config : ModelConfig}
    (hc : lookupModel n = some config) :
    (generate_model_info fs p n q t).bind
        (fun f1 => generate_model_info f1 p n q t) =
      generate_model_info fs p n q t ∧
    (generate_model_info fs p n q t).map (fun f => manifestAt f p) =
      some (some (modelManifest n p q t config.description)) := by
  constructor
  · unfold generate_model_info
    rw [hc]
    simp [setFile_idem]
  · unfold generate_model_info
    rw [hc]
    simp [manifestAt, lookup_setFile]

/-- C6 witness: double-writing the manifest at a fixed clock reading
equals writing it once. -/
theorem C6_manifest_idempotent_witness :
    (generate_model_info fs0 "./m" "deepseek-r1-8b" "q4" "t").bind
        (fun f1 => generate_model_info f1 "./m" "deepseek-r1-8b" "q4" "t") =
      generate_model_info fs0 "./m" "deepseek-r1-8b" "q4" "t" :=
  (@C6_manifest_idempotent fs0 "./m" "deepseek-r1-8b" "q4" "t"
    { hf_path := "deepseek-ai/DeepSeek-R1-Distill-Llama-8B",
      description := "DeepSeek R1 Distilled Llama 8B - optimized reasoning model" }
    rfl).1

/-! ### C7 — termination of the retry-until-unique-path loop -/

/-- A draw stream that repeats the same timestamp/random pair forever. -/
def clashStream : Nat → String × Nat := fun _ => ("20250101_120000", 1234)

/-- A filesystem already holding exactly the directory that `clashStream`
keeps proposing. -/
def clashFS : FS :=
  ⟨[(candidate baseW (suffixOf ("20250101_120000", 1234))).render], []⟩

theorem allocFrom_clash_none :
    ∀ fuel i, allocFrom clashStream clashFS baseW i fuel = none := by
  intro fuel
  induction fuel with
  | zero => intro i; rfl
  | succ n ih =>
    intro i
    rw [allocFrom]
    have hfr : fresh clashFS (candidate baseW (suffixOf (clashStream i))) = false := by
      show fresh clashFS (candidate baseW (suffixOf ("20250101_120000", 1234))) = false
      decide
    rw [if_neg (by simp [hfr])]
    exact ih (i + 1)

/-- C7 counterexample: with a draw stream that repeats a colliding suffix
forever, the uncapped loop never terminates — the claim's "terminates for
every input" is false. -/
theorem C7_counterexample : ¬ allocTerminates clashStream clashFS baseW := by
  rintro ⟨fuel, hf⟩
  rw [allocFrom_clash_none fuel 0] at hf
  cases hf

/-- If some draw index yields a fresh candidate, enough fuel makes the
loop succeed. -/
theorem allocFrom_isSome_of_fresh {stream : Nat → String × Nat} {fs : FS} {base : PyPath} :
    ∀ fuel i j, i ≤ j → j < i + fuel →
      fresh fs (candidate base (suffixOf (stream j))) = true →
      (allocFrom stream fs base i fuel).isSome = true := by
  intro fuel
  induction fuel with
  | zero => intro i j h1 h2 _; omega
  | succ n ih =>
    intro i j h1 h2 hf
    rw [allocFrom]
    by_cases hfi : fresh fs (candidate base (suffixOf (stream i))) = true
    · rw [if_pos hfi]; rfl
    · rw [if_neg hfi]
      have hne : i ≠ j := fun e => hfi (e ▸ hf)
      exact ih (i + 1) j (by omega) (by omega) hf

/-- C7 (amended): the loop terminates for every input whose draw stream
eventually proposes an unused name — in particular for every stream of
pairwise-distinct suffixes, since the set of existing directories is
finite while the candidate names are all distinct; it does not terminate
for degenerate streams that forever repeat a colliding suffix, since the
source imposes no iteration cap. -/
theorem C7_termination (stream : Nat → String × Nat) (fs : FS) (base : PyPath)
    (hinj : Function.Injective fun i => suffixOf (stream i)) :
    allocTerminates stream fs base := by
  have hinj2 : Function.Injective
      fun i => (candidate base (suffixOf (stream i))).render := by
    intro i j h
    apply hinj
    dsimp only [candidate, PyPath.render] at h
    exact string_append_left_cancel (string_append_left_cancel h)
  have hex : ∃ i, (candidate base (suffixOf (stream i))).render ∉ fs.dirs := by
    by_contra hcon
    push_neg at hcon
    have hmem : ∀ i, (candidate base (suffixOf (stream i))).render ∈
        {x : String | x ∈ fs.dirs} := hcon
    have hinf : {x : String | x ∈ fs.dirs}.Infinite :=
      Set.infinite_of_injective_forall_mem hinj2 hmem
    exact hinf fs.dirs.finite_toSet
  obtain ⟨i, hi⟩ := hex
  exact ⟨i + 1, allocFrom_isSome_of_fresh (i + 1) 0 i (Nat.zero_le i) (by omega)
    ((fresh_iff fs _).mpr hi)⟩

/-- A stream of pairwise-distinct suffixes. -/
def distinctStream : Nat → String × Nat :=
  fun i => (String.mk (List.replicate i 'a'), 1000)

theorem distinctStream_injective :
    Function.Injective fun i => suffixOf (distinctStream i) := by
  intro i j h
  have hl := congrArg String.length h
  simp only [suffixOf, distinctStream, String.length_append] at hl
  have hm : ∀ k : Nat, (String.mk (List.replicate k 'a')).length = k := by
    intro k
    show (List.replicate k 'a').length = k
    exact List.length_replicate k 'a'
  rw [hm i, hm j] at hl
  omega

/-- C7 witness: the loop terminates on a stream of pairwise-distinct
suffixes over a nonempty filesystem. -/
theorem C7_termination_witness : allocTerminates distinctStream clashFS baseW :=
  C7_termination distinctStream clashFS baseW distinctStream_injective

/-! ### C8 — process exit codes -/

/-- C8: the exit status is 0 exactly when the conversion driver succeeded;
with valid command-line choices, a missing ML runtime exits 1 before any
conversion work (no events, filesystem untouched); and a run whose driver
reported failure exits 1. -/
theorem C8_exit_codes {or : Oracle} {fs : FS} {args : Args} {fuel : Nat}
    {r : MainResult} (h : runMain or fs args fuel = some r) :
    (r.exitCode = 0 ↔ r.succeeded = true) ∧
    (modelKeys.contains args.model = true →
     quantChoices.contains args.quantization = true →
     or.mlxInstalled = false →
       r.exitCode = 1 ∧ r.succeeded = false ∧ r.fs = fs ∧
         r.events = [] ∧ r.iosEvents = []) ∧
    (modelKeys.contains args.model = true →
     quantChoices.contains args.quantization = true →
     or.mlxInstalled = true → r.succeeded = false → r.exitCode = 1) := by
  rcases runMain_inv h with ⟨hm, rfl⟩ | ⟨hm, hq, rfl⟩ | ⟨hm, hq, hx, rfl⟩ |
    ⟨hm, hq, hx, dr, hd, rfl⟩
  · refine ⟨by simp, ?_, ?_⟩ <;> (intro hm2; rw [hm] at hm2; cases hm2)
  · refine ⟨by simp, ?_, ?_⟩ <;> (intro _ hq2; rw [hq] at hq2; cases hq2)
  · refine ⟨by simp, fun _ _ _ => ⟨rfl, rfl, rfl, rfl, rfl⟩, ?_⟩
    intro _ _ hx2
    rw [hx] at hx2; cases hx2
  · refine ⟨?_, ?_, ?_⟩
    · cases hs : dr.success <;> simp [hs]
    · intro _ _ hx2; rw [hx] at hx2; cases hx2
    · intro _ _ _ hs
      have hs2 : dr.success = false := hs
      simp [hs2]

/-- C8 witness: with the runtime missing, the concrete run exits 1 with
nothing done. -/
theorem C8_exit_codes_witness :
    ∃ r, runMain { orW with mlxInstalled := false } fs0 argsW 1 = some r ∧
      r.exitCode = 1 ∧ r.fs = fs0 ∧ r.events = [] := by
  have hr := @C8_exit_codes { orW with mlxInstalled := false } fs0 argsW 1
    ⟨1, false, fs0, [], []⟩ rfl
  obtain ⟨he, _, hfs, hev, _⟩ := hr.2.1 (by decide) (by decide) rfl
  exact ⟨⟨1, false, fs0, [], []⟩, rfl, he, hfs, hev⟩

/-! ### C9 — iOS optimization runs on the wrong path -/

/-- C9: on a successful conversion with `--optimize-ios`, the optimization
step is invoked on the user-supplied base output directory, while every
convert call of the run wrote to a path different from that directory —
so the optimization step never touches the converted artifact. -/
theorem C9_ios_on_base_path {or : Oracle} {fs : FS} {args : Args} {fuel : Nat}
    {r : MainResult} (h : runMain or fs args fuel = some r)
    (hopt : args.optimize_ios = true) (hs : r.succeeded = true) :
    r.iosEvents = optimize_for_ios or args.output.render ∧
    Event.loadCall args.output.render ∈ r.iosEvents ∧
    (∀ hf mp qz qb qg, Event.convertCall hf mp qz qb qg ∈ r.events →
      mp ≠ args.output.render) := by
  rcases runMain_inv h with ⟨_, rfl⟩ | ⟨_, _, rfl⟩ | ⟨_, _, _, rfl⟩ |
    ⟨hm, hq, hx, dr, hd, rfl⟩
  · cases hs
  · cases hs
  · cases hs
  · have hdr : dr.success = true := hs
    rcases convert_model_to_mlx_inv hd with ⟨hn, rfl⟩ | ⟨config, p, hc, ha, hcase⟩
    · cases hdr
    · rcases hcase with ⟨_, rfl⟩ | ⟨_, _, rfl⟩ | ⟨_, hw, rfl⟩
      · cases hdr
      · cases hdr
      · refine ⟨by simp [hopt], by simp [hopt, optimize_for_ios], ?_⟩
        intro hf2 mp qz qb qg hmem
        rcases List.mem_cons.mp hmem with he | hrest
        · have hmp : mp = p.render := convertEvent_mlx_path he.symm
          subst hmp
          obtain ⟨_, j, _, hp⟩ := allocFrom_sound fuel 0 p ha
          rw [hp]
          exact candidate_render_ne_base args.output _
        · rcases List.mem_append.mp hrest with ht | hw2
          · exact absurd ht (convertCall_not_mem_test_model or p.render hf2 mp qz qb qg)
          · simp at hw2

/-- C9 witness: the nominal run with `--optimize-ios` loads the base
output directory for optimization, and every convert call of the run
wrote elsewhere. -/
theorem C9_ios_on_base_path_witness :
    ∃ r, runMain orW fs0 argsW 1 = some r ∧
      r.iosEvents = optimize_for_ios orW argsW.output.render ∧
      (∀ hf mp qz qb qg, Event.convertCall hf mp qz qb qg ∈ r.events →
        mp ≠ argsW.output.render) := by
  have h := @C9_ios_on_base_path orW fs0 argsW 1 _ rfl rfl rfl
  exact ⟨_, rfl, h.1, h.2.2⟩

/-! ### C10 — manifest write failure flips the outcome -/

/-- C10: with a valid request and the runtime present, if the external
conversion succeeded but writing the manifest raises, the driver's handler
turns the run into a failure (exit code 1) even though the converted
output directory exists and no manifest file was added; conversely, every
successful run has the manifest stored at the converted path. -/
theorem C10_manifest_failure_coupling {or : Oracle} {fs : FS} {args : Args}
    {fuel : Nat} {r : MainResult} (h : runMain or fs args fuel = some r)
    (hm : modelKeys.contains args.model = true)
    (hq : quantChoices.contains args.quantization = true)
    (hx : or.mlxInstalled = true) :
    (or.convertOk = true → or.writeOk = false →
      r.succeeded = false ∧ r.exitCode = 1 ∧
      ∃ p, allocFrom or.suffix fs args.output 0 fuel = some p ∧
        p.render ∈ r.fs.dirs ∧ r.fs.files = fs.files) ∧
    (r.succeeded = true →
      ∃ p config, allocFrom or.suffix fs args.output 0 fuel = some p ∧
        lookupModel args.model = some config ∧
        manifestAt r.fs p.render =
          some (modelManifest args.model p.render args.quantization or.nowIso
            config.description)) := by
  rcases runMain_inv h with ⟨hm2, _⟩ | ⟨_, hq2, _⟩ | ⟨_, _, hx2, _⟩ |
    ⟨_, _, _, dr, hd, rfl⟩
  · rw [hm] at hm2; cases hm2
  · rw [hq] at hq2; cases hq2
  · rw [hx] at hx2; cases hx2
  · constructor
    · intro hco hwo
      rcases convert_model_to_mlx_inv hd with ⟨hn, rfl⟩ | ⟨config, p, hc, ha, hcase⟩
      · have hcm := (lookupModel_eq_none_iff args.model).mp hn
        rw [hm] at hcm; cases hcm
      · rcases hcase with ⟨hc2, rfl⟩ | ⟨_, _, rfl⟩ | ⟨_, hw2, rfl⟩
        · rw [hco] at hc2; cases hc2
        · exact ⟨rfl, rfl, p, ha, List.mem_cons_self _ _, rfl⟩
        · rw [hwo] at hw2; cases hw2
    · intro hs
      rcases convert_model_to_mlx_inv hd with ⟨hn, rfl⟩ | ⟨config, p, hc, ha, hcase⟩
      · cases hs
      · rcases hcase with ⟨_, rfl⟩ | ⟨_, _, rfl⟩ | ⟨_, _, rfl⟩
        · cases hs
        · cases hs
        · exact ⟨p, config, ha, hc, by simp [manifestAt, lookup_setFile]⟩

/-- C10 witness: a concrete run whose manifest write raises fails with
exit code 1 while the converted directory exists. -/
theorem C10_manifest_failure_coupling_witness :
    ∃ r p, runMain { orW with writeOk := false } fs0 argsW 1 = some r ∧
      allocFrom ({ orW with writeOk := false } : Oracle).suffix fs0 argsW.output 0 1 =
        some p ∧
      r.succeeded = false ∧ r.exitCode = 1 ∧ p.render ∈ r.fs.dirs := by
  have h := (@C10_manifest_failure_coupling { orW with writeOk := false } fs0 argsW 1 _
    rfl (by decide) (by decide) rfl).1 rfl rfl
  obtain ⟨h1, h2, p, hp, hmem, _⟩ := h
  exact ⟨_, p, rfl, hp, h1, h2, hmem⟩

end DecentralMind
